import Mathlib

/-!
Verification of the Todoapp repository's task-tracker and data-usage layer.

Shallow embedding conventions:
* Timestamps (`Date` values in the source) are modelled as seconds since the
  epoch (`Instant := Nat`), with the time zone fixed to UTC, so a calendar
  date string `"YYYY-MM-DD"` is modelled as its day index since the epoch
  and `new Date(dateString)` corresponds to `day * 86400`.
* Numeric fields (`number` in TypeScript) are modelled as exact rationals.
* `undefined` / `null` become `Option`.
* React state updates become explicit state-passing: each hook operation is
  a pure function of the previous state and of the outcome of the remote
  call it performs.
-/

namespace TodoApp

/-- Seconds since the epoch (UTC). -/
abbrev Instant := Nat

def secPerDay : Nat := 86400

/-- The calendar day an instant falls on (UTC), as a day index since the
epoch; mirrors `new Date(t.getFullYear(), t.getMonth(), t.getDate())`. -/
def dayOf (t : Instant) : Nat := t / secPerDay

/-- A parsed `"HH:MM"` due-time string (`dueTime.split(':').map(Number)`). -/
structure TimeOfDay where
  hour : Nat
  minute : Nat
deriving DecidableEq

/-- The `priority` union type `'low' | 'medium' | 'high'`. -/
inductive Priority where
  | low
  | medium
  | high
deriving DecidableEq

/-- The client-side `Todo` interface (full variant, `types/todo.ts`):
`dueDate` is the day index of the `"YYYY-MM-DD"` string, `scheduledFor` a
precise instant, `completedAt` the optional completion timestamp. -/
structure Todo where
  id : String
  title : String
  description : Option String
  category : String
  priority : Priority
  dueTime : Option TimeOfDay
  dueDate : Option Nat
  scheduledFor : Option Instant
  completed : Bool
  createdAt : Instant
  completedAt : Option Instant
deriving DecidableEq

/-- The payload `Omit<Todo, 'id' | 'createdAt' | 'completed'>` that the add
form supplies; the insert row built in `useTodos.addTodo` carries no
`completed_at`, so no completion timestamp appears here. -/
structure TodoInput where
  title : String
  description : Option String
  category : String
  priority : Priority
  dueTime : Option TimeOfDay
  dueDate : Option Nat
  scheduledFor : Option Instant
deriving DecidableEq

/-- The row returned by the insert in `useTodos.addTodo`: the supplied
fields plus `completed: false` and a null `completed_at`. -/
def mkNewTodo (input : TodoInput) (id : String) (now : Instant) : Todo :=
  { id := id
    title := input.title
    description := input.description
    category := input.category
    priority := input.priority
    dueTime := input.dueTime
    dueDate := input.dueDate
    scheduledFor := input.scheduledFor
    completed := false
    createdAt := now
    completedAt := none }

/-- `useTodos.addTodo` effect on the local collection:
`setTodos(prev => [newTodo, ...prev])`. -/
def addTodo (input : TodoInput) (id : String) (now : Instant)
    (todos : List Todo) : List Todo :=
  mkNewTodo input id now :: todos

/-- The update row built in `useTodos.toggleTodo`:
`completed: !todo.completed`,
`completed_at: !todo.completed ? new Date().toISOString() : null`. -/
def toggleOne (todo : Todo) (now : Instant) : Todo :=
  { todo with
    completed := !todo.completed
    completedAt := if !todo.completed then some now else none }

/-- `useTodos.toggleTodo`: finds the todo by id (early return when absent),
sends the toggle update, and replaces the matching row with the returned
one in local state. -/
def toggleTodo (id : String) (now : Instant) (todos : List Todo) :
    List Todo :=
  match todos.find? (fun t => decide (t.id = id)) with
  | none => todos
  | some todo =>
      let updated := toggleOne todo now
      todos.map (fun t => if t.id = id then updated else t)

/-- `useTodos.deleteTodo` effect on the local collection:
`setTodos(prev => prev.filter(t => t.id !== id))`. -/
def deleteTodo (id : String) (todos : List Todo) : List Todo :=
  todos.filter (fun t => decide (t.id ≠ id))

/-- The completion invariant: the completion timestamp is present iff the
completion flag is set. -/
def TodoInv (t : Todo) : Prop := t.completedAt.isSome = t.completed

theorem todoInv_mkNewTodo (input : TodoInput) (id : String) (now : Instant) :
    TodoInv (mkNewTodo input id now) := rfl

theorem todoInv_toggleOne (todo : Todo) (now : Instant) :
    TodoInv (toggleOne todo now) := by
  unfold TodoInv toggleOne
  cases todo.completed <;> simp

theorem toggleTodo_mem (id : String) (now : Instant) (todos : List Todo)
    (t : Todo) (ht : t ∈ toggleTodo id now todos) :
    t ∈ todos ∨ ∃ todo, todos.find? (fun t' => decide (t'.id = id)) = some todo ∧
      t = toggleOne todo now := by
  unfold toggleTodo at ht
  rcases hfind : todos.find? (fun t' => decide (t'.id = id)) with _ | todo
  · rw [hfind] at ht
    exact Or.inl ht
  · rw [hfind] at ht
    simp only [List.mem_map] at ht
    obtain ⟨a, ha, hta⟩ := ht
    by_cases hid : a.id = id
    · right
      exact ⟨todo, hfind, by rw [← hta, if_pos hid]⟩
    · left
      rw [← hta, if_neg hid]
      exact ha

/-- C1: for every task in the collection and after every task operation
(add, toggle-completion, delete) the completion timestamp is present iff the
completion flag is true; a newly added task has `completed = false` and no
completion timestamp; toggling an incomplete task sets a completion
timestamp; toggling a completed task back clears it. -/
theorem completion_timestamp_iff_flag :
    (∀ input id now todos, (∀ t ∈ todos, TodoInv t) →
        ∀ t ∈ addTodo input id now todos, TodoInv t)
  ∧ (∀ id now todos, (∀ t ∈ todos, TodoInv t) →
        ∀ t ∈ toggleTodo id now todos, TodoInv t)
  ∧ (∀ id todos, (∀ t ∈ todos, TodoInv t) →
        ∀ t ∈ deleteTodo id todos, TodoInv t)
  ∧ (∀ input id now todos,
        (mkNewTodo input id now).completed = false ∧
        (mkNewTodo input id now).completedAt = none ∧
        addTodo input id now todos = mkNewTodo input id now :: todos)
  ∧ (∀ id now todos todo,
        todos.find? (fun t => decide (t.id = id)) = some todo →
        (todo.completed = false →
          ∀ t ∈ toggleTodo id now todos, t.id = id →
            t.completed = true ∧ t.completedAt = some now) ∧
        (todo.completed = true →
          ∀ t ∈ toggleTodo id now todos, t.id = id →
            t.completed = false ∧ t.completedAt = none)) := by
  refine ⟨?_, ?_, ?_, ?_, ?_⟩
  · intro input id now todos hinv t ht
    rcases ht with _ | ht
    · exact todoInv_mkNewTodo input id now
    · exact hinv t (by assumption)
  · intro id now todos hinv t ht
    rcases toggleTodo_mem id now todos t ht with hmem | ⟨todo, _, rfl⟩
    · exact hinv t hmem
    · exact todoInv_toggleOne todo now
  · intro id todos hinv t ht
    exact hinv t (List.mem_of_mem_filter ht)
  · intro input id now todos
    exact ⟨rfl, rfl, rfl⟩
  · intro id now todos todo hfind
    constructor
    · intro hc t ht hid
      unfold toggleTodo at ht
      rw [hfind] at ht
      simp only [List.mem_map] at ht
      obtain ⟨a, _, hta⟩ := ht
      by_cases h : a.id = id
      · rw [← hta, if_pos h]
        unfold toggleOne
        rw [hc]
        exact ⟨rfl, rfl⟩
      · rw [← hta, if_neg h] at hid
        exact absurd hid h
    · intro hc t ht hid
      unfold toggleTodo at ht
      rw [hfind] at ht
      simp only [List.mem_map] at ht
      obtain ⟨a, _, hta⟩ := ht
      by_cases h : a.id = id
      · rw [← hta, if_pos h]
        unfold toggleOne
        rw [hc]
        exact ⟨rfl, rfl⟩
      · rw [← hta, if_neg h] at hid
        exact absurd hid h

/-- Concrete sample input for exercising the task operations. -/
def sampleInput : TodoInput :=
  { title := "Buy milk"
    description := none
    category := "home"
    priority := Priority.medium
    dueTime := none
    dueDate := none
    scheduledFor := none }

/-- The task created from `sampleInput` at instant 5 with id `"t1"`. -/
def sampleTodo : Todo := mkNewTodo sampleInput "t1" 5

theorem completion_timestamp_iff_flag_witness :
    (∀ t ∈ addTodo sampleInput "t1" 5 [], TodoInv t)
  ∧ (∀ t ∈ toggleTodo "t1" 9 [sampleTodo], t.id = "t1" →
      t.completed = true ∧ t.completedAt = some 9) := by
  refine ⟨?_, ?_⟩
  · exact completion_timestamp_iff_flag.1 sampleInput "t1" 5 []
      (by intro t ht; simp at ht)
  · exact (completion_timestamp_iff_flag.2.2.2.2 "t1" 9 [sampleTodo]
      sampleTodo (by decide)).1 (by decide)

/-- The client-side `InternetRecord` interface (`types/internet.ts`); the
`date` field keeps its `"YYYY-MM-DD"` string form, balances and hours are
exact rationals. -/
structure InternetRecord where
  id : String
  date : String
  startBalance : Rat
  endBalance : Rat
  usage : Rat
  workHours : Rat
  office : String
  notes : Option String
  createdAt : Instant
  updatedAt : Instant
deriving DecidableEq

/-- The payload `Omit<InternetRecord, 'id'|'createdAt'|'updatedAt'|'usage'>`
received by `useInternetRecords.addRecord`. -/
structure RecordInput where
  date : String
  startBalance : Rat
  endBalance : Rat
  workHours : Rat
  office : String
  notes : Option String
deriving DecidableEq

/-- The row produced by the insert in `useInternetRecords.addRecord`:
`usage = recordData.startBalance - recordData.endBalance`. -/
def mkNewRecord (input : RecordInput) (id : String) (now : Instant) :
    InternetRecord :=
  { id := id
    date := input.date
    startBalance := input.startBalance
    endBalance := input.endBalance
    usage := input.startBalance - input.endBalance
    workHours := input.workHours
    office := input.office
    notes := input.notes
    createdAt := now
    updatedAt := now }

/-- `useInternetRecords.addRecord` effect on the local collection:
`setRecords(prev => [newRecord, ...prev])`. -/
def addRecord (input : RecordInput) (id : String) (now : Instant)
    (records : List InternetRecord) : List InternetRecord :=
  mkNewRecord input id now :: records

/-- The `Partial<Omit<InternetRecord, 'id'|'createdAt'|'updatedAt'>>`
argument of `updateRecord`; a `some` marks a supplied field.  For `notes`
the supplied string is stored as `updates.notes || null`, i.e. an empty
string clears the field. -/
structure RecordUpdates where
  date : Option String
  startBalance : Option Rat
  endBalance : Option Rat
  workHours : Option Rat
  office : Option String
  notes : Option String
deriving DecidableEq

/-- The `updateData` row of `useInternetRecords.updateRecord` applied to a
row: `date` and `office` are included only when truthy (a supplied empty
string is dropped), the numeric fields whenever not `undefined`;
`usageOpt` is the recomputed usage when the hook added one. -/
def updateRow (u : RecordUpdates) (usageOpt : Option Rat) (now : Instant)
    (r : InternetRecord) : InternetRecord :=
  { r with
    date := match u.date with
      | some d => if d = "" then r.date else d
      | none => r.date
    startBalance := u.startBalance.getD r.startBalance
    endBalance := u.endBalance.getD r.endBalance
    workHours := u.workHours.getD r.workHours
    office := match u.office with
      | some o => if o = "" then r.office else o
      | none => r.office
    notes := match u.notes with
      | some s => if s = "" then none else some s
      | none => r.notes
    usage := usageOpt.getD r.usage
    updatedAt := now }

/-- `useInternetRecords.updateRecord`: when a balance is supplied the hook
looks the record up in the current collection and recomputes
`usage = (updates.startBalance ?? record.startBalance) -
(updates.endBalance ?? record.endBalance)`; it then replaces the matching
row by identifier. -/
def updateRecord (id : String) (u : RecordUpdates) (now : Instant)
    (records : List InternetRecord) : List InternetRecord :=
  let usageOpt : Option Rat :=
    if u.startBalance.isSome || u.endBalance.isSome then
      match records.find? (fun r => decide (r.id = id)) with
      | some record =>
          some ((u.startBalance.getD record.startBalance) -
                (u.endBalance.getD record.endBalance))
      | none => none
    else none
  records.map (fun r => if r.id = id then updateRow u usageOpt now r else r)

/-- `useInternetRecords.deleteRecord` effect on the local collection. -/
def deleteRecord (id : String) (records : List InternetRecord) :
    List InternetRecord :=
  records.filter (fun r => decide (r.id ≠ id))

/-- The derived-usage invariant of a usage record. -/
def RecInv (r : InternetRecord) : Prop :=
  r.usage = r.startBalance - r.endBalance

/-- C2: after `addRecord`, and after any `updateRecord` whose partial
update supplies a start or end balance while the record is present (ids
being unique, as they are database primary keys), the record's derived
`usage` equals its start balance minus its end balance. -/
theorem usage_eq_start_minus_end :
    (∀ input id now, RecInv (mkNewRecord input id now))
  ∧ (∀ input id now records,
      addRecord input id now records = mkNewRecord input id now :: records)
  ∧ (∀ id u now records,
      (records.map InternetRecord.id).Nodup →
      (u.startBalance.isSome || u.endBalance.isSome) = true →
      (∃ rec ∈ records, rec.id = id) →
      ∀ r ∈ updateRecord id u now records, r.id = id → RecInv r) := by
  refine ⟨fun input id now => rfl, fun input id now records => rfl, ?_⟩
  intro id u now records hnd hbal hex r hr hrid
  obtain ⟨rec0, hmem0, hid0⟩ := hex
  rcases hfind : records.find? (fun r' => decide (r'.id = id)) with _ | rec
  · exact absurd (by simp [hid0] : decide (rec0.id = id) = true)
      (List.find?_eq_none.mp hfind rec0 hmem0)
  · have hp := List.find?_some hfind
    have hrecid : rec.id = id := by simpa using hp
    have hrecmem : rec ∈ records := List.mem_of_find?_eq_some hfind
    unfold updateRecord at hr
    rw [hbal] at hr
    simp only [if_true, hfind, List.mem_map] at hr
    obtain ⟨a, hamem, hra⟩ := hr
    by_cases haid : a.id = id
    · have haeq : a = rec := List.inj_on_of_nodup_map hnd hamem hrecmem
        (by rw [haid, hrecid])
      rw [← hra, if_pos haid, haeq]
      unfold RecInv updateRow
      simp
    · rw [← hra, if_neg haid] at hrid
      exact absurd hrid haid

/-- Concrete sample input for exercising the usage-record operations. -/
def sampleRecordInput : RecordInput :=
  { date := "2025-01-10"
    startBalance := 50
    endBalance := 35
    workHours := 8
    office := "HQ"
    notes := none }

/-- The record created from `sampleRecordInput` at instant 0, id `"r1"`. -/
def sampleRecord : InternetRecord := mkNewRecord sampleRecordInput "r1" 0

/-- A partial update that only supplies a new end balance. -/
def sampleUpdates : RecordUpdates :=
  { date := none
    startBalance := none
    endBalance := some 20
    workHours := none
    office := none
    notes := none }

theorem usage_eq_start_minus_end_witness :
    RecInv (mkNewRecord sampleRecordInput "r1" 0)
  ∧ (∀ r ∈ updateRecord "r1" sampleUpdates 7 [sampleRecord],
      r.id = "r1" → RecInv r) := by
  refine ⟨usage_eq_start_minus_end.1 sampleRecordInput "r1" 0, ?_⟩
  exact usage_eq_start_minus_end.2.2 "r1" sampleUpdates 7 [sampleRecord]
    (by decide) (by decide) ⟨sampleRecord, List.mem_singleton.mpr rfl, rfl⟩

/-- The date-filter values of the task list (`dateFilter` state in
`App.tsx`). -/
inductive DateFilter where
  | all
  | today
  | tomorrow
  | week
  | overdue
  | future
deriving DecidableEq

/-- The list of all six date-filter values. -/
def DateFilter.values : List DateFilter :=
  [DateFilter.all, DateFilter.today, DateFilter.tomorrow, DateFilter.week,
   DateFilter.overdue, DateFilter.future]

/-- `matchesDateFilter` from `App.tsx` (full variant), with `now` passed
explicitly.  `today`, `tomorrow` and `weekFromNow` are the local (UTC)
midnights used by the source; day-level comparisons of midnight `Date`
values become comparisons of day indices. -/
def matchesDateFilter (todo : Todo) (filter : DateFilter) (now : Instant) :
    Bool :=
  let today := dayOf now
  let tomorrow := today + 1
  let weekFromNow := today + 7
  match filter with
  | DateFilter.all => true
  | DateFilter.today =>
      match todo.scheduledFor with
      | some s => dayOf s == today
      | none =>
          match todo.dueDate with
          | some d => d == today
          | none =>
              match todo.dueTime with
              | some _ => dayOf todo.createdAt == today
              | none => false
  | DateFilter.tomorrow =>
      match todo.scheduledFor with
      | some s => dayOf s == tomorrow
      | none =>
          match todo.dueDate with
          | some d => d == tomorrow
          | none => false
  | DateFilter.week =>
      match todo.scheduledFor with
      | some s => today ≤ dayOf s && dayOf s < weekFromNow
      | none =>
          match todo.dueDate with
          | some d => today ≤ d && d < weekFromNow
          | none => false
  | DateFilter.overdue =>
      if todo.completed then false
      else
        match todo.scheduledFor with
        | some s => s < now
        | none =>
            match todo.dueDate with
            | some d =>
                let dueInstant :=
                  match todo.dueTime with
                  | some t => d * secPerDay + t.hour * 3600 + t.minute * 60
                  | none => d * secPerDay + 86399
                dueInstant < now
            | none =>
                match todo.dueTime with
                | some t =>
                    today * secPerDay + t.hour * 3600 + t.minute * 60 < now
                | none => false
  | DateFilter.future =>
      match todo.scheduledFor with
      | some s => today < dayOf s
      | none =>
          match todo.dueDate with
          | some d => today < d
          | none => false

/-- How many of the six date-filter classes a task falls into under a
fixed `now`. -/
def matchCount (todo : Todo) (now : Instant) : Nat :=
  DateFilter.values.countP (fun f => matchesDateFilter todo f now)

/-- A task due "today" (day 0) with nothing else set, used to show the
date-filter classes overlap. -/
def dueTodayTodo : Todo :=
  { id := "t2"
    title := "due today"
    description := none
    category := "home"
    priority := Priority.low
    dueTime := none
    dueDate := some 0
    scheduledFor := none
    completed := false
    createdAt := 0
    completedAt := none }

/-- C3 counterexample: the date-filter classes are not mutually exclusive,
so a task is not assigned to exactly one of them: a pending task whose due
date is the current day matches `all`, `today` and `week` — three of the
six classes — at `now = 0`. -/
theorem dateFilter_not_exactly_one :
    matchCount dueTodayTodo 0 = 3 ∧
    matchesDateFilter dueTodayTodo DateFilter.today 0 = true ∧
    matchesDateFilter dueTodayTodo DateFilter.week 0 = true ∧
    matchesDateFilter dueTodayTodo DateFilter.all 0 = true := by
  decide

/-- C3 (amended): the date-filter classification is a total Boolean
predicate over the six classes; every task matches at least one class
(`all` matches everything), and a completed task never matches
`overdue` — but the classes are not mutually exclusive. -/
theorem dateFilter_total_all_and_overdue_excludes_completed :
    (∀ todo now, matchesDateFilter todo DateFilter.all now = true)
  ∧ (∀ todo now, 1 ≤ matchCount todo now)
  ∧ (∀ todo now, todo.completed = true →
      matchesDateFilter todo DateFilter.overdue now = false) := by
  refine ⟨fun todo now => rfl, ?_, ?_⟩
  · intro todo now
    have h : matchesDateFilter todo DateFilter.all now = true := rfl
    unfold matchCount DateFilter.values
    simp [List.countP_cons, h]
  · intro todo now hc
    unfold matchesDateFilter
    rw [hc]
    simp

theorem dateFilter_total_all_and_overdue_excludes_completed_witness :
    matchesDateFilter (toggleOne dueTodayTodo 3) DateFilter.overdue 0
      = false := by
  exact dateFilter_total_all_and_overdue_excludes_completed.2.2
    (toggleOne dueTodayTodo 3) 0 (by decide)

/-- Day index of the calendar date 2025-01-09 (days since 1970-01-01). -/
def day20250109 : Nat := 20097

/-- The spec's example task: `dueDate = "2025-01-09"`, `dueTime = "09:00"`,
`completed = false`. -/
def exampleOverdueTodo : Todo :=
  { id := "t3"
    title := "example"
    description := none
    category := "work"
    priority := Priority.high
    dueTime := some { hour := 9, minute := 0 }
    dueDate := some day20250109
    scheduledFor := none
    completed := false
    createdAt := 0
    completedAt := none }

/-- The spec's example evaluation instant, `2025-01-10T00:00:00` (UTC). -/
def exampleNow : Instant := (day20250109 + 1) * secPerDay

/-- C4: the classification consults the date fields in precedence order —
with a `scheduledFor` instant present the result ignores `dueDate`,
`dueTime` and `createdAt`; with no schedule but a `dueDate` present the
result ignores `createdAt` (the legacy creation-day fallback); with only a
legacy `dueTime` the task is interpreted as due today (`today` compares the
creation day with the current day, `overdue` places the time on the current
day); and the example task due 2025-01-09 09:00 evaluated at
2025-01-10T00:00:00 matches the `overdue` filter. -/
theorem dateFilter_precedence_and_overdue_example :
    (∀ todo f now s, todo.scheduledFor = some s →
      ∀ d t c, matchesDateFilter todo f now =
        matchesDateFilter
          { todo with dueDate := d, dueTime := t, createdAt := c } f now)
  ∧ (∀ todo f now d, todo.scheduledFor = none → todo.dueDate = some d →
      ∀ c, matchesDateFilter todo f now =
        matchesDateFilter { todo with createdAt := c } f now)
  ∧ (∀ todo now t, todo.scheduledFor = none → todo.dueDate = none →
      todo.dueTime = some t →
      (matchesDateFilter todo DateFilter.today now =
        (dayOf todo.createdAt == dayOf now)) ∧
      (todo.completed = false →
        matchesDateFilter todo DateFilter.overdue now =
          decide (dayOf now * secPerDay + t.hour * 3600 + t.minute * 60
            < now)))
  ∧ matchesDateFilter exampleOverdueTodo DateFilter.overdue exampleNow
      = true := by
  refine ⟨?_, ?_, ?_, by decide⟩
  · intro todo f now s hs d t c
    cases f <;> simp [matchesDateFilter, hs]
  · intro todo f now d hs hd c
    cases f <;> simp [matchesDateFilter, hs, hd]
  · intro todo now t hs hd ht
    constructor
    · simp [matchesDateFilter, hs, hd, ht]
    · intro hc
      simp [matchesDateFilter, hs, hd, ht, hc]

/-- A task carrying only a precise `scheduledFor` instant (mid-day 3). -/
def scheduledTodo : Todo :=
  { id := "t4"
    title := "scheduled"
    description := none
    category := "work"
    priority := Priority.low
    dueTime := none
    dueDate := none
    scheduledFor := some (3 * secPerDay + 600)
    completed := false
    createdAt := 0
    completedAt := none }

theorem dateFilter_precedence_and_overdue_example_witness :
    matchesDateFilter scheduledTodo DateFilter.today 0 =
      matchesDateFilter
        { scheduledTodo with
          dueDate := some 0, dueTime := some { hour := 1, minute := 2 },
          createdAt := 99 } DateFilter.today 0 := by
  exact dateFilter_precedence_and_overdue_example.1 scheduledTodo
    DateFilter.today 0 (3 * secPerDay + 600) rfl
    (some 0) (some { hour := 1, minute := 2 }) 99

/-- `normalizeOfficeName` from the monitoring page:
`officeName.trim().toLowerCase()`, written on the character list so that
it evaluates in the kernel (ASCII lowering, as `Char.toLower` performs,
agrees with `toLowerCase` on the ASCII office labels involved). -/
def normalizeOfficeName (s : String) : String :=
  String.mk ((((s.data.dropWhile Char.isWhitespace).reverse.dropWhile
    Char.isWhitespace).reverse).map Char.toLower)

/-- `officeNamesMatch` from the monitoring page:
`normalizeOfficeName(office1) === normalizeOfficeName(office2)`. -/
def officeNamesMatch (office1 office2 : String) : Bool :=
  decide (normalizeOfficeName office1 = normalizeOfficeName office2)

/-- One entry of an office-breakdown accumulator:
`{ records: number; usage: number }`. -/
structure OfficeAgg where
  records : Nat
  usage : Rat
deriving DecidableEq

/-- One step of the monitoring page's `stats.officeBreakdown` reduce: the
first existing key matching case-insensitively is reused, otherwise the
record's own office label becomes a new key (JS objects preserve insertion
order, modelled by an association list). -/
def breakdownStepCI (acc : List (String × OfficeAgg))
    (record : InternetRecord) : List (String × OfficeAgg) :=
  let officeKey :=
    match acc.find? (fun kv => officeNamesMatch kv.1 record.office) with
    | some kv => kv.1
    | none => record.office
  if acc.any (fun kv => decide (kv.1 = officeKey)) then
    acc.map (fun kv =>
      if kv.1 = officeKey then
        (kv.1, { records := kv.2.records + 1
                 usage := kv.2.usage + record.usage })
      else kv)
  else
    acc ++ [(officeKey, { records := 1, usage := record.usage })]

/-- The monitoring page's case-insensitive `officeBreakdown`. -/
def officeBreakdownCI (records : List InternetRecord) :
    List (String × OfficeAgg) :=
  records.foldl breakdownStepCI []

/-- One step of `filteredStats.officeBreakdown` in `InternetExportPage`:
the accumulator is keyed by the exact office string (`acc[record.office]`),
with no case-insensitive lookup. -/
def breakdownStepCS (acc : List (String × OfficeAgg))
    (record : InternetRecord) : List (String × OfficeAgg) :=
  if acc.any (fun kv => decide (kv.1 = record.office)) then
    acc.map (fun kv =>
      if kv.1 = record.office then
        (kv.1, { records := kv.2.records + 1
                 usage := kv.2.usage + record.usage })
      else kv)
  else
    acc ++ [(record.office, { records := 1, usage := record.usage })]

/-- `InternetExportPage`'s case-sensitive `filteredStats.officeBreakdown`. -/
def officeBreakdownCS (records : List InternetRecord) :
    List (String × OfficeAgg) :=
  records.foldl breakdownStepCS []

/-- The duplicate check of `handleSubmit` (monitoring page):
`records.find(record => record.date === formData.date &&
officeNamesMatch(record.office, formData.office.trim()))`. -/
def findExistingRecord (records : List InternetRecord)
    (date office : String) : Option InternetRecord :=
  records.find? (fun r => decide (r.date = date) &&
    officeNamesMatch r.office office)

/-- A record with office label `"Main Office"`. -/
def mainOfficeRecord : InternetRecord :=
  mkNewRecord
    { date := "2025-01-10", startBalance := 50, endBalance := 35
      workHours := 8, office := "Main Office", notes := none } "r2" 0

/-- The same data with office label `"main office"` (lower case). -/
def lowerOfficeRecord : InternetRecord :=
  mkNewRecord
    { date := "2025-01-10", startBalance := 40, endBalance := 30
      workHours := 6, office := "main office", notes := none } "r3" 0

/-- C5 counterexample: `"Main Office"` and `"main office"` match
case-insensitively, yet `InternetExportPage`'s per-office breakdown keys
them separately (two groups), so the two records are not placed in the same
group by every breakdown aggregation. -/
theorem office_case_grouping_counterexample :
    officeNamesMatch mainOfficeRecord.office lowerOfficeRecord.office = true
  ∧ (officeBreakdownCS [mainOfficeRecord, lowerOfficeRecord]).length = 2
  ∧ (officeBreakdownCI [mainOfficeRecord, lowerOfficeRecord]).length
      = 1 := by
  decide

/-- C5 (amended): office labels differing only in case are grouped
together by the monitoring page's breakdown aggregation and by the
duplicate detection before create, while `InternetExportPage`'s filtered
breakdown groups by the exact office string and keeps them apart. -/
theorem office_case_grouping :
    (∀ r1 r2 : InternetRecord,
      officeNamesMatch r1.office r2.office = true →
      (officeBreakdownCI [r1, r2]).length = 1)
  ∧ (∀ r1 r2 : InternetRecord,
      officeNamesMatch r1.office r2.office = true →
      r1.date = r2.date →
      findExistingRecord [r1] r2.date r2.office = some r1)
  ∧ (∀ r1 r2 : InternetRecord,
      officeNamesMatch r1.office r2.office = true →
      r1.office ≠ r2.office →
      (officeBreakdownCS [r1, r2]).length = 2) := by
  refine ⟨?_, ?_, ?_⟩
  · intro r1 r2 h
    simp [officeBreakdownCI, breakdownStepCI, h]
  · intro r1 r2 h hd
    simp [findExistingRecord, h, hd]
  · intro r1 r2 _ hne
    simp only [officeBreakdownCS, List.foldl, breakdownStepCS]
    simp [hne]

theorem office_case_grouping_witness :
    (officeBreakdownCI [mainOfficeRecord, lowerOfficeRecord]).length = 1
  ∧ findExistingRecord [mainOfficeRecord] lowerOfficeRecord.date
      lowerOfficeRecord.office = some mainOfficeRecord := by
  exact ⟨office_case_grouping.1 mainOfficeRecord lowerOfficeRecord
      (by decide),
    office_case_grouping.2.1 mainOfficeRecord lowerOfficeRecord
      (by decide) (by decide)⟩

/-- `String.prototype.trim()` on the character list (kernel-evaluable). -/
def trimStr (s : String) : String :=
  String.mk (((s.data.dropWhile Char.isWhitespace).reverse.dropWhile
    Char.isWhitespace).reverse)

/-- The monitoring page's add/edit form state; the numeric fields hold the
`parseFloat` results of the text inputs, `none` modelling `NaN`. -/
structure FormData where
  date : String
  startBalance : Option Rat
  endBalance : Option Rat
  workHours : Option Rat
  office : String
  notes : String
deriving DecidableEq

/-- The outcome of one `handleSubmit` run: a validation rejection, an
update of the record being edited, an update of a conflicting existing
record (carrying the surfaced conflict message), or a create. -/
inductive SubmitAction where
  | rejected (msg : String)
  | editUpdate (id : String) (u : RecordUpdates)
  | conflictUpdate (id : String) (u : RecordUpdates) (msg : String)
  | create (input : RecordInput)
deriving DecidableEq

/-- The update payload `handleSubmit` passes to `updateRecord`:
`notes: formData.notes.trim() || undefined`. -/
def mkSubmitUpdates (form : FormData) (sb eb wh : Rat) : RecordUpdates :=
  { date := some form.date
    startBalance := some sb
    endBalance := some eb
    workHours := some wh
    office := some (trimStr form.office)
    notes := if trimStr form.notes = "" then none
             else some (trimStr form.notes) }

/-- The create payload `handleSubmit` passes to `addRecord`. -/
def mkSubmitInput (form : FormData) (sb eb wh : Rat) : RecordInput :=
  { date := form.date
    startBalance := sb
    endBalance := eb
    workHours := wh
    office := trimStr form.office
    notes := if trimStr form.notes = "" then none
             else some (trimStr form.notes) }

/-- `handleSubmit` from the monitoring page: validates the parsed numbers,
requires `startBalance ≥ endBalance` and a non-empty office, then either
updates the record being edited, updates an existing record with the same
(date, case-insensitive office) pair — surfacing a conflict message, whose
locale-formatted date is abstracted to the raw date string — or creates a
new record. -/
def handleSubmit (records : List InternetRecord) (editingId : Option String)
    (form : FormData) : SubmitAction :=
  match form.startBalance, form.endBalance, form.workHours with
  | some sb, some eb, some wh =>
      if sb < eb then
        SubmitAction.rejected
          "Start balance should be greater than or equal to end balance"
      else if trimStr form.office = "" then
        SubmitAction.rejected "Please specify an office"
      else
        match editingId with
        | some id => SubmitAction.editUpdate id (mkSubmitUpdates form sb eb wh)
        | none =>
            match findExistingRecord records form.date
                (trimStr form.office) with
            | some existing =>
                SubmitAction.conflictUpdate existing.id
                  (mkSubmitUpdates form sb eb wh)
                  ("Updated existing record for " ++ form.date ++ " - " ++
                    trimStr form.office)
            | none => SubmitAction.create (mkSubmitInput form sb eb wh)
  | _, _, _ =>
      SubmitAction.rejected
        "Please enter valid numbers for all balance and work hours fields"

/-- The first create of the spec's example: 2025-01-10, office `"HQ"`,
start 50, end 35. -/
def hqForm : FormData :=
  { date := "2025-01-10", startBalance := some 50, endBalance := some 35
    workHours := some 8, office := "HQ", notes := "" }

/-- The second create of the spec's example: same date, office `"hq"`. -/
def hqLowerForm : FormData :=
  { date := "2025-01-10", startBalance := some 45, endBalance := some 40
    workHours := some 5, office := "hq", notes := "" }

/-- The record inserted by the first example create. -/
def hqRecord : InternetRecord :=
  mkNewRecord (mkSubmitInput hqForm 50 35 8) "r1" 0

/-- C6: a create whose (date, case-insensitive office) pair matches an
existing in-memory record performs `updateRecord` on the matching
record's id instead of `addRecord` and surfaces a conflict message; in the
example, creating 2025-01-10/"HQ"/50/35 yields usage 15, and a second
create for the same date with office `"hq"` updates that first record
rather than inserting a new one. -/
theorem duplicate_create_updates_existing :
    (∀ records form sb eb wh existing,
      form.startBalance = some sb → form.endBalance = some eb →
      form.workHours = some wh → ¬ sb < eb → trimStr form.office ≠ "" →
      findExistingRecord records form.date (trimStr form.office)
        = some existing →
      handleSubmit records none form =
        SubmitAction.conflictUpdate existing.id (mkSubmitUpdates form sb eb wh)
          ("Updated existing record for " ++ form.date ++ " - " ++
            trimStr form.office))
  ∧ handleSubmit [] none hqForm
      = SubmitAction.create (mkSubmitInput hqForm 50 35 8)
  ∧ hqRecord.usage = 15
  ∧ handleSubmit [hqRecord] none hqLowerForm
      = SubmitAction.conflictUpdate hqRecord.id
          (mkSubmitUpdates hqLowerForm 45 40 5)
          "Updated existing record for 2025-01-10 - hq"
  ∧ (updateRecord hqRecord.id (mkSubmitUpdates hqLowerForm 45 40 5) 9
      [hqRecord]).length = 1 := by
  refine ⟨?_, by decide, ?_, by decide, by decide⟩
  case refine_2 =>
    show (50 : Rat) - 35 = 15
    norm_num
  intro records form sb eb wh existing hsb heb hwh hlt hoff hfind
  unfold handleSubmit
  rw [hsb, heb, hwh]
  simp only [if_neg hlt, if_neg hoff, hfind]

theorem duplicate_create_updates_existing_witness :
    handleSubmit [hqRecord] none hqLowerForm =
      SubmitAction.conflictUpdate hqRecord.id
        (mkSubmitUpdates hqLowerForm 45 40 5)
        ("Updated existing record for " ++ hqLowerForm.date ++ " - " ++
          trimStr hqLowerForm.office) := by
  exact duplicate_create_updates_existing.1 [hqRecord] hqLowerForm 45 40 5
    hqRecord rfl rfl rfl (by decide) (by decide) (by rfl)

/-- The `InternetStats` interface, with the per-office breakdown as an
insertion-ordered association list. -/
structure InternetStats where
  totalRecords : Nat
  totalUsage : Rat
  averageUsage : Rat
  averageWorkHours : Rat
  currentMonthUsage : Rat
  lastWeekUsage : Rat
  officeBreakdown : List (String × OfficeAgg)
deriving DecidableEq

/-- `filteredStats` from `InternetExportPage`: statistics of the filtered
collection; for filtered data the month and week figures both carry the
filtered-period total. -/
def mkFilteredStats (filteredRecords : List InternetRecord) :
    InternetStats :=
  let totalRecords := filteredRecords.length
  let totalUsage := (filteredRecords.map InternetRecord.usage).sum
  { totalRecords := totalRecords
    totalUsage := totalUsage
    averageUsage := if 0 < totalRecords then totalUsage / totalRecords else 0
    averageWorkHours :=
      if 0 < totalRecords then
        (filteredRecords.map InternetRecord.workHours).sum / totalRecords
      else 0
    currentMonthUsage := totalUsage
    lastWeekUsage := totalUsage
    officeBreakdown := officeBreakdownCS filteredRecords }

/-- A spreadsheet cell value: a raw numeric cell, a number the source
renders through `toFixed` (the decimal formatting itself is abstracted),
or a text cell. -/
inductive CellValue where
  | count (n : Nat)
  | fixed (q : Rat)
  | text (s : String)
deriving DecidableEq

/-- `summaryData` of the office-aware `exportInternetDataToExcel`: the
Metric/Value rows of the generated `Summary` sheet. -/
def summaryData (stats : InternetStats) (exportDate exportTime : String) :
    List (String × CellValue) :=
  [("Total Records", CellValue.count stats.totalRecords),
   ("Total Data Used (GB)", CellValue.fixed stats.totalUsage),
   ("Average Daily Usage (GB)", CellValue.fixed stats.averageUsage),
   ("Average Work Hours", CellValue.fixed stats.averageWorkHours),
   ("Period Usage (GB)", CellValue.fixed stats.totalUsage),
   ("Export Date", CellValue.text exportDate),
   ("Export Time", CellValue.text exportTime)]

/-- C7: the value written into the summary sheet's "Total Records" row for
a filtered collection with its precomputed statistics equals the length of
that filtered collection. -/
theorem total_records_row_eq_length
    (filteredRecords : List InternetRecord) (d t : String) :
    (summaryData (mkFilteredStats filteredRecords) d t).find?
        (fun row => decide (row.1 = "Total Records"))
      = some ("Total Records", CellValue.count filteredRecords.length) := by
  rfl

/-- The `"YYYY-MM"` month key the export derives from a record's ISO date
(`getFullYear()` plus the zero-padded `getMonth() + 1` of
`new Date(record.date)` are the date string's first seven characters). -/
def monthKey (r : InternetRecord) : String :=
  String.mk (r.date.data.take 7)

/-- The distinct month keys of `monthlyData`, in first-appearance order
(the insertion order of the accumulating JS object). -/
def monthlyKeys (records : List InternetRecord) : List String :=
  records.foldl
    (fun acc r =>
      if acc.any (fun k => decide (k = monthKey r)) then acc
      else acc ++ [monthKey r]) []

/-- Sheet-name list of the first `exportInternetDataToExcel` variant
(`internetExcelExport.ts`, first file section): the data sheet, the
summary sheet and then — with no gate — the monthly-breakdown sheet are
always appended. -/
def workbookSheetsV1 (records : List InternetRecord)
    (stats : InternetStats) : List String :=
  ["Internet Records", "Summary", "Monthly Breakdown"]

/-- Sheet-name list of the office-aware `exportInternetDataToExcel`
variant: data and summary sheets always, an `Office Breakdown` sheet only
when the precomputed stats hold more than one office key, a
`Monthly Breakdown` sheet only when the records span more than one
distinct month. -/
def workbookSheetsV2 (records : List InternetRecord)
    (stats : InternetStats) : List String :=
  ["Internet Data Records", "Summary"]
  ++ (if 1 < stats.officeBreakdown.length then ["Office Breakdown"] else [])
  ++ (if 1 < (monthlyKeys records).length then ["Monthly Breakdown"] else [])

/-- C8 counterexample: for a collection spanning a single month the first
export variant still appends the monthly-breakdown sheet, so the breakdown
sheets are not appended only when more than one distinct group is
present. -/
theorem monthly_sheet_unconditional_v1 :
    (monthlyKeys [mainOfficeRecord]).length = 1
  ∧ "Monthly Breakdown" ∈
      workbookSheetsV1 [mainOfficeRecord]
        (mkFilteredStats [mainOfficeRecord]) := by
  constructor
  · decide
  · simp [workbookSheetsV1]

/-- C8 (amended): the office-aware export variant emits exactly one data
sheet and one summary sheet, an office-breakdown sheet exactly when the
precomputed statistics hold more than one office group, and a
monthly-breakdown sheet exactly when the records span more than one
distinct month; the first variant always emits data, summary and monthly
breakdown. -/
theorem workbook_sheet_structure :
    (∀ records stats,
      (workbookSheetsV2 records stats).count "Internet Data Records" = 1
      ∧ (workbookSheetsV2 records stats).count "Summary" = 1
      ∧ ("Office Breakdown" ∈ workbookSheetsV2 records stats ↔
          1 < stats.officeBreakdown.length)
      ∧ ("Monthly Breakdown" ∈ workbookSheetsV2 records stats ↔
          1 < (monthlyKeys records).length))
  ∧ (∀ records stats,
      workbookSheetsV1 records stats
        = ["Internet Records", "Summary", "Monthly Breakdown"]) := by
  refine ⟨?_, fun records stats => rfl⟩
  intro records stats
  unfold workbookSheetsV2
  by_cases h1 : 1 < stats.officeBreakdown.length <;>
    by_cases h2 : 1 < (monthlyKeys records).length <;>
      simp [h1, h2, List.count_cons, List.count_append]

/-- The local state of `useTodos`. -/
structure TodosState where
  todos : List Todo
  loading : Bool
  error : Option String
deriving DecidableEq

/-- The local state of `useInternetRecords`. -/
structure RecordsState where
  records : List InternetRecord
  loading : Bool
  error : Option String
deriving DecidableEq

/-- The outcome of a remote call: the converted payload, or the
human-readable message the catch block would store
(`err instanceof Error ? err.message : <fallback>`). -/
inductive Remote (α : Type) where
  | ok (a : α)
  | err (msg : String)
deriving DecidableEq

/-- `useTodos.fetchTodos` as a state transformer; the second component is
the exception propagated to the caller (`none`: no re-raise).  A null user
id clears the collection and the loading flag without any remote call
(the result ignores `remote`). -/
def fetchTodosStep (userId : Option String) (st : TodosState)
    (remote : Remote (List Todo)) : TodosState × Option String :=
  match userId with
  | none => ({ st with todos := [], loading := false }, none)
  | some _ =>
      match remote with
      | Remote.ok rows =>
          ({ todos := rows, loading := false, error := none }, none)
      | Remote.err m =>
          ({ st with loading := false, error := some m }, none)

/-- `useTodos.addTodo` as a state transformer: a null user returns
immediately; a failure stores the message and does not re-raise. -/
def addTodoStep (userId : Option String) (st : TodosState)
    (remote : Remote Todo) : TodosState × Option String :=
  match userId with
  | none => (st, none)
  | some _ =>
      match remote with
      | Remote.ok t =>
          ({ st with todos := t :: st.todos, error := none }, none)
      | Remote.err m => ({ st with error := some m }, none)

/-- `useTodos.toggleTodo` as a state transformer (early return when the id
is absent); a failure stores the message and does not re-raise. -/
def toggleTodoStep (st : TodosState) (id : String)
    (remote : Remote Todo) : TodosState × Option String :=
  match st.todos.find? (fun t => decide (t.id = id)) with
  | none => (st, none)
  | some _ =>
      match remote with
      | Remote.ok updated =>
          ({ st with
             todos := st.todos.map (fun t => if t.id = id then updated else t)
             error := none }, none)
      | Remote.err m => ({ st with error := some m }, none)

/-- `useTodos.deleteTodo` as a state transformer; a failure stores the
message and does not re-raise. -/
def deleteTodoStep (st : TodosState) (id : String)
    (remote : Remote Unit) : TodosState × Option String :=
  match remote with
  | Remote.ok _ =>
      ({ st with todos := deleteTodo id st.todos, error := none }, none)
  | Remote.err m => ({ st with error := some m }, none)

/-- `useInternetRecords.fetchRecords` as a state transformer; a failure
stores the message and does not re-raise. -/
def fetchRecordsStep (userId : Option String) (st : RecordsState)
    (remote : Remote (List InternetRecord)) :
    RecordsState × Option String :=
  match userId with
  | none => ({ st with records := [], loading := false }, none)
  | some _ =>
      match remote with
      | Remote.ok rows =>
          ({ records := rows, loading := false, error := none }, none)
      | Remote.err m =>
          ({ st with loading := false, error := some m }, none)

/-- `useInternetRecords.addRecord` as a state transformer: a null user
returns immediately; a failure stores the message and re-raises
(`throw err`). -/
def addRecordStep (userId : Option String) (st : RecordsState)
    (remote : Remote InternetRecord) : RecordsState × Option String :=
  match userId with
  | none => (st, none)
  | some _ =>
      match remote with
      | Remote.ok r =>
          ({ st with records := r :: st.records, error := none }, none)
      | Remote.err m => ({ st with error := some m }, some m)

/-- `useInternetRecords.updateRecord` as a state transformer: a failure
stores the message and re-raises. -/
def updateRecordStep (st : RecordsState) (id : String)
    (remote : Remote InternetRecord) : RecordsState × Option String :=
  match remote with
  | Remote.ok updated =>
      ({ st with
         records := st.records.map (fun r => if r.id = id then updated else r)
         error := none }, none)
  | Remote.err m => ({ st with error := some m }, some m)

/-- The possible outcomes of the two remote calls inside
`useInternetRecords.deleteRecord`: the ownership pre-check can fail, the
deletion itself can fail, or both succeed. -/
inductive DeleteOutcome where
  | ok
  | fetchErr
  | deleteErr (msg : String)
deriving DecidableEq

/-- `useInternetRecords.deleteRecord` as a state transformer: every
failure stores a message and re-raises
(`throw new Error(errorMessage)`). -/
def deleteRecordStep (st : RecordsState) (id : String)
    (outcome : DeleteOutcome) : RecordsState × Option String :=
  match outcome with
  | DeleteOutcome.ok =>
      ({ st with records := deleteRecord id st.records, error := none }, none)
  | DeleteOutcome.fetchErr =>
      ({ st with error := some "Record not found or access denied" },
        some "Record not found or access denied")
  | DeleteOutcome.deleteErr m =>
      ({ st with error := some m }, some m)

/-- An empty usage-record hook state. -/
def emptyRecordsState : RecordsState :=
  { records := [], loading := false, error := none }

/-- An empty task hook state. -/
def emptyTodosState : TodosState :=
  { todos := [], loading := false, error := none }

/-- C9 counterexample: a failing delete in `useInternetRecords` re-raises
the error to the caller (so failed deletes do propagate an exception), and
a failing create in `useTodos` does not re-raise (so not every create
re-raises). -/
theorem error_propagation_counterexample :
    (deleteRecordStep emptyRecordsState "r1"
      (DeleteOutcome.deleteErr "boom")).2 = some "boom"
  ∧ (addTodoStep (some "u1") emptyTodosState (Remote.err "boom")).2
      = none := ⟨rfl, rfl⟩

/-- C9 (amended): every remote failure is caught inside the hook and its
human-readable message stored in the hook's error state; no operation of
`useTodos` and neither fetch operation re-raises, while `addRecord`,
`updateRecord` and `deleteRecord` of `useInternetRecords` all additionally
re-raise the error for the calling form. -/
theorem error_propagation_policy :
    (∀ uid st m, fetchTodosStep (some uid) st (Remote.err m)
      = ({ st with loading := false, error := some m }, none))
  ∧ (∀ uid st m, addTodoStep (some uid) st (Remote.err m)
      = ({ st with error := some m }, none))
  ∧ (∀ st id rem, (toggleTodoStep st id rem).2 = none)
  ∧ (∀ st id todo m,
      st.todos.find? (fun t => decide (t.id = id)) = some todo →
      toggleTodoStep st id (Remote.err m)
        = ({ st with error := some m }, none))
  ∧ (∀ st id m, deleteTodoStep st id (Remote.err m)
      = ({ st with error := some m }, none))
  ∧ (∀ uid st m, fetchRecordsStep (some uid) st (Remote.err m)
      = ({ st with loading := false, error := some m }, none))
  ∧ (∀ uid st m, addRecordStep (some uid) st (Remote.err m)
      = ({ st with error := some m }, some m))
  ∧ (∀ st id m, updateRecordStep st id (Remote.err m)
      = ({ st with error := some m }, some m))
  ∧ (∀ st id m, deleteRecordStep st id (DeleteOutcome.deleteErr m)
      = ({ st with error := some m }, some m))
  ∧ (∀ st id, (deleteRecordStep st id DeleteOutcome.fetchErr).2
      = some "Record not found or access denied") := by
  refine ⟨fun uid st m => rfl, fun uid st m => rfl, ?_, ?_,
    fun st id m => rfl, fun uid st m => rfl, fun uid st m => rfl,
    fun st id m => rfl, fun st id m => rfl, fun st id => rfl⟩
  · intro st id rem
    unfold toggleTodoStep
    rcases h : st.todos.find? (fun t => decide (t.id = id)) with _ | todo
    · rw [h]
    · rw [h]
      rcases rem with a | m <;> rfl
  · intro st id todo m hfind
    unfold toggleTodoStep
    rw [hfind]

theorem error_propagation_policy_witness :
    toggleTodoStep { todos := [sampleTodo], loading := false, error := none }
        "t1" (Remote.err "boom")
      = ({ todos := [sampleTodo], loading := false, error := some "boom" },
          none) := by
  exact error_propagation_policy.2.2.2.1
    { todos := [sampleTodo], loading := false, error := none }
    "t1" sampleTodo "boom" (by decide)

/-- C10: with a null owning-user identifier `addTodo` and `addRecord`
return immediately, leaving collection, loading flag and error state
unchanged and ignoring any remote outcome, while the fetches replace the
collection with the empty list and clear the loading flag, also
independently of any remote outcome. -/
theorem null_user_guards :
    (∀ st rem, addTodoStep none st rem = (st, none))
  ∧ (∀ st rem, fetchTodosStep none st rem
      = ({ st with todos := [], loading := false }, none))
  ∧ (∀ st rem, addRecordStep none st rem = (st, none))
  ∧ (∀ st rem, fetchRecordsStep none st rem
      = ({ st with records := [], loading := false }, none)) :=
  ⟨fun st rem => rfl, fun st rem => rfl, fun st rem => rfl,
   fun st rem => rfl⟩
